import Mathlib

/-!
Shallow embedding of the TileStache Composite provider
(src/TileStache/Goodies/Providers/Composite.py) and verification of its
natural-language specification.

Rasters are embedded as lists of per-pixel values: numpy float32 channel
arrays become `List ℚ` (floating point modeled as exact rationals; every
arithmetic operation in the source is a ratio of small integers, so the
rational semantics matches the intended real-number semantics), and byte
images (PIL `RGBA` images) become lists of four-field `Nat` records.
Errors raised by the Python code become an `Except` error type whose
constructors correspond one-to-one to the distinct raise sites.
-/

deriving instance DecidableEq for Except

namespace Composite

/-- Errors of the Composite provider.  Each constructor corresponds to one
distinct failure of the Python source:

* `colorNotString`, `colorNoHash`, `colorBadLength`, `colorBadHex` are the
  four `KnownUnknown` raise sites of `make_color` (lines 353-375).
* `conflictingLayerSpec`, `maskWithoutContent`, `emptyLayerSpec` are the
  three `KnownUnknown` raise sites of `Layer.render` (lines 278-305).
* `unsupportedBlendMode name` is the `KnownUnknown` of `blend_images`
  (line 490), carrying the offending mode tag.
* `unsupportedAdjustment name` is the `KnownUnknown` of
  `apply_adjustments` (line 418).
* `typeError` and `indexError` stand for uncaught Python `TypeError` and
  `IndexError` exceptions, which are not `KnownUnknown` and are distinct
  from every error of the spec's taxonomy.
* `degenerateCurve` is Modelled from the spec: the spec names a
  `DegenerateCurve` error for the curve solver, but the code has no
  corresponding raise site; the constructor exists only so that the spec's
  expectation can be stated and compared with what the code produces. -/
inductive Err where
  | colorNotString
  | colorNoHash
  | colorBadLength
  | colorBadHex
  | conflictingLayerSpec
  | maskWithoutContent
  | emptyLayerSpec
  | unsupportedBlendMode (name : String)
  | unsupportedAdjustment (name : String)
  | typeError
  | indexError
  | degenerateCurve
deriving DecidableEq

/-- A float raster as manipulated by `blend_images` and friends: the Python
code represents it as a list of four numpy float arrays `[r, g, b, a]`,
each value nominally in `[0, 1]`. -/
structure Rgba where
  r : List ℚ
  g : List ℚ
  b : List ℚ
  a : List ℚ
deriving DecidableEq

/-- The `mask_chan` argument of `blend_images`: either a single channel
(a numpy array) or a full four-channel raster (a Python list), in which
case only its alpha channel is used (line 468-470). -/
inductive MaskArg where
  | chan (m : List ℚ)
  | rgba (m : Rgba)
deriving DecidableEq

/-- Elementwise combination of three equal-shaped numpy arrays. -/
def zipWith3q (f : ℚ → ℚ → ℚ → ℚ) : List ℚ → List ℚ → List ℚ → List ℚ
  | x :: xs, y :: ys, z :: zs => f x y z :: zipWith3q f xs ys zs
  | _, _, _ => []

/-- The per-channel plain blend of line 475:
`(1 - mask_chan) * bottom_rgba[c] + mask_chan * top_rgba[c]`. -/
def plainMix (mc bc tc : ℚ) : ℚ := (1 - mc) * bc + mc * tc

/-- The per-value hard-light formula of lines 484-487: values are split on
`top < 0.5` versus `top >= 0.5` and combined accordingly (the source does
this with boolean index masks over the whole array; elementwise it is this
conditional). -/
def hardMix (bc tc : ℚ) : ℚ :=
  if tc < 1 / 2 then 2 * bc * tc else 1 - 2 * (1 - bc) * (1 - tc)

/-- The final per-channel opacity interpolation of line 493:
`(1 - opacity) * bottom_rgba[c] + opacity * output_rgba[c]`. -/
def opMix (opacity bc oc : ℚ) : ℚ := (1 - opacity) * bc + opacity * oc

/-- `blend_images(bottom_rgba, top_rgba, mask_chan, opacity, blendmode)`
(lines 451-495).  The initial `numpy.copy` of each bottom channel is the
identity at this value level (the buffer-level allocation behaviour is
modeled separately by `blendImagesHeap`).  A falsy `blendmode` (Python
`None` or the empty string) selects the plain blend; `"hard light"`
selects the hard-light RGB math and, exactly as in the source, leaves the
output alpha channel as the copied bottom alpha; anything else raises. -/
def blendImages (bottom top : Rgba) (mask : MaskArg) (opacity : ℚ)
    (blendmode : Option String) : Except Err Rgba :=
  if opacity = 0 then Except.ok bottom
  else
    let m := match mask with
      | MaskArg.chan c => c
      | MaskArg.rgba rg => rg.a
    if blendmode = none ∨ blendmode = some "" then
      let mixR := zipWith3q plainMix m bottom.r top.r
      let mixG := zipWith3q plainMix m bottom.g top.g
      let mixB := zipWith3q plainMix m bottom.b top.b
      let inter := List.zipWith (fun ta mc => ta * mc) top.a m
      let mixA := List.zipWith (fun ba ic => 1 - (1 - ba) * (1 - ic)) bottom.a inter
      Except.ok
        { r := List.zipWith (opMix opacity) bottom.r mixR
          g := List.zipWith (opMix opacity) bottom.g mixG
          b := List.zipWith (opMix opacity) bottom.b mixB
          a := mixA }
    else if blendmode = some "hard light" then
      Except.ok
        { r := List.zipWith (opMix opacity) bottom.r (List.zipWith hardMix bottom.r top.r)
          g := List.zipWith (opMix opacity) bottom.g (List.zipWith hardMix bottom.g top.g)
          b := List.zipWith (opMix opacity) bottom.b (List.zipWith hardMix bottom.b top.b)
          a := bottom.a }
    else Except.error (Err.unsupportedBlendMode (blendmode.getD ""))

end Composite

namespace Composite

/-- C5: Blending with opacity 0 returns (a copy of) the bottom raster
unchanged in all four channels, for every top raster, mask argument and
blend-mode tag, valid or not: the short-circuit at lines 464-466 runs
before the mask inspection and the mode dispatch. -/
theorem C5_opacity_zero_identity (bottom top : Rgba) (mask : MaskArg)
    (blendmode : Option String) :
    blendImages bottom top mask 0 blendmode = Except.ok bottom := by
  simp [blendImages]

/-- C1 counterexample: at a fully transparent one-pixel bottom raster, a
fully opaque one-pixel top raster, mask 1 and opacity 1, mode `hard light`
yields output alpha `[0]` while mode none yields output alpha `[1]` — the
alpha channels of the two modes differ, so the claim that `hard light`
handles alpha identically to the none case is false on the code. -/
theorem C1_cex :
    Except.map Rgba.a (blendImages ⟨[0], [0], [0], [0]⟩ ⟨[1], [1], [1], [1]⟩
        (MaskArg.chan [1]) 1 (some "hard light")) ≠
      Except.map Rgba.a (blendImages ⟨[0], [0], [0], [0]⟩ ⟨[1], [1], [1], [1]⟩
        (MaskArg.chan [1]) 1 none) := by
  norm_num [blendImages, zipWith3q, plainMix, hardMix, opMix, Except.map]
  simp

/-- C1 (amended): for every bottom raster, top raster, mask argument and
opacity, blending with mode `hard light` returns an output whose alpha
channel is exactly the bottom raster's alpha channel: the sole alpha
combination step of `blend_images` (lines 477-479) runs only in the
mode-none branch, and the final opacity interpolation of line 493 touches
only the RGB channels, so in `hard light` mode the alpha copied from the
bottom raster at line 462 is returned untouched. -/
theorem C1_hard_light_alpha (bottom top : Rgba) (mask : MaskArg) (opacity : ℚ) :
    Except.map Rgba.a (blendImages bottom top mask opacity (some "hard light")) =
      Except.ok bottom.a := by
  by_cases hop : opacity = 0
  · simp [blendImages, hop, Except.map]
  · simp [blendImages, hop, Except.map]

/-- C4 counterexample: with opacity 0 and the unrecognized mode tag
`"multiply"`, `blend_images` does not fail with `UnsupportedBlendMode` —
it returns a copy of the bottom raster, because the opacity-0
short-circuit (lines 464-466) runs before the mode dispatch.  This
refutes the claim's "(including opacity 0)". -/
theorem C4_cex :
    blendImages ⟨[0], [0], [0], [0]⟩ ⟨[1], [1], [1], [1]⟩ (MaskArg.chan [0]) 0
        (some "multiply") = Except.ok ⟨[0], [0], [0], [0]⟩ ∧
      blendImages ⟨[0], [0], [0], [0]⟩ ⟨[1], [1], [1], [1]⟩ (MaskArg.chan [0]) 0
        (some "multiply") ≠ Except.error (Err.unsupportedBlendMode "multiply") := by
  constructor
  · simp [blendImages]
  · simp [blendImages]

/-- C4 (amended): for every bottom raster, top raster, mask argument,
nonzero opacity, and mode tag that is a non-empty string other than
`"hard light"`, `blend_images` fails with `UnsupportedBlendMode` naming
the tag.  (With opacity 0 the function returns the bottom copy before
looking at the mode, and an empty-string tag is falsy in Python and is
treated like mode none.) -/
theorem C4_unrecognized_mode_fails (bottom top : Rgba) (mask : MaskArg)
    (opacity : ℚ) (s : String) (hop : opacity ≠ 0) (hs : s ≠ "")
    (hhl : s ≠ "hard light") :
    blendImages bottom top mask opacity (some s) =
      Except.error (Err.unsupportedBlendMode s) := by
  simp [blendImages, hop, hs, hhl]

/-- C4 witness: the amended theorem applied at a concrete input. -/
theorem C4_witness :
    blendImages ⟨[0], [0], [0], [0]⟩ ⟨[1], [1], [1], [1]⟩ (MaskArg.chan [0]) 1
        (some "multiply") = Except.error (Err.unsupportedBlendMode "multiply") :=
  C4_unrecognized_mode_fails ⟨[0], [0], [0], [0]⟩ ⟨[1], [1], [1], [1]⟩
    (MaskArg.chan [0]) 1 "multiply" (by norm_num) (by decide) (by decide)

/-- A dynamically typed Python value passed to `make_color`: either a
(`str` or `unicode`) string, given by its characters, or any non-string
value, which `make_color` rejects at line 353-354 before looking at its
contents. -/
inductive PyVal where
  | str (cs : List Char)
  | other

/-- Value of a single hexadecimal digit, as accepted by Python's
`int(s, 16)`. -/
def hexVal (c : Char) : Option Nat :=
  if '0' ≤ c ∧ c ≤ '9' then some (c.toNat - '0'.toNat)
  else if 'a' ≤ c ∧ c ≤ 'f' then some (c.toNat - 'a'.toNat + 10)
  else if 'A' ≤ c ∧ c ≤ 'F' then some (c.toNat - 'A'.toNat + 10)
  else none

/-- Characters stripped by Python's `int` before parsing (`str.strip`
whitespace). -/
def isPySpace (c : Char) : Bool :=
  c = ' ' || c = '\t' || c = '\n' || c = '\r' || c = '\x0b' || c = '\x0c'

/-- Value of a nonempty string of hex digits; `none` when empty or when
any character is not a hex digit. -/
def hexDigitsVal (cs : List Char) : Option Nat :=
  if cs = [] then none
  else
    cs.foldl
      (fun acc c =>
        match acc, hexVal c with
        | some v, some d => some (16 * v + d)
        | _, _ => none)
      (some 0)

/-- Python 2's `int(s, 16)`, as called by `make_color` on two-character
slices (lines 368-372): leading and trailing whitespace is stripped, an
optional single leading sign is honoured, an optional `0x`/`0X` prefix is
skipped, and the remainder must be a nonempty run of hex digits;
otherwise a `ValueError` is raised (modeled as `none`). -/
def pyIntBase16 (cs0 : List Char) : Option Int :=
  let cs1 := (((cs0.dropWhile isPySpace).reverse).dropWhile isPySpace).reverse
  let signed : Int × List Char :=
    match cs1 with
    | '+' :: rest => (1, rest)
    | '-' :: rest => (-1, rest)
    | _ => (1, cs1)
  let cs3 := match signed.2 with
    | '0' :: 'x' :: rest => rest
    | '0' :: 'X' :: rest => rest
    | _ => signed.2
  (hexDigitsVal cs3).map (fun v => signed.1 * (v : Int))

/-- `color[i:j]` on a Python string. -/
def pySlice (cs : List Char) (i j : Nat) : List Char := (cs.drop i).take (j - i)

/-- `''.join([color[i] for i in idx])`: the index lists used at lines
362-366 are in bounds for the already-length-checked input, so the
default character is never produced. -/
def pyPick (cs : List Char) (idx : List Nat) : List Char :=
  idx.map (fun i => cs.getD i ' ')

/-- `make_color(color)` (lines 341-377).  The input keeps its leading
`#`; short forms are expanded by index picking; the four channel bytes
are parsed with Python's `int(_, 16)`; a 7-character string (6 hex
digits) takes alpha `0xFF` via the `and/or` idiom of line 372.  On the
empty string, `color[0]` raises an uncaught `IndexError`. -/
def makeColor : PyVal → Except Err (Int × Int × Int × Int)
  | PyVal.other => Except.error Err.colorNotString
  | PyVal.str cs =>
    match cs with
    | [] => Except.error Err.indexError
    | c0 :: _ =>
      if c0 ≠ '#' then Except.error Err.colorNoHash
      else if ¬(cs.length = 4 ∨ cs.length = 5 ∨ cs.length = 7 ∨ cs.length = 9) then
        Except.error Err.colorBadLength
      else
        let color := if cs.length = 4 then pyPick cs [0, 1, 1, 2, 2, 3, 3]
          else if cs.length = 5 then pyPick cs [0, 1, 1, 2, 2, 3, 3, 4, 4]
          else cs
        match pyIntBase16 (pySlice color 1 3) with
        | none => Except.error Err.colorBadHex
        | some r =>
          match pyIntBase16 (pySlice color 3 5) with
          | none => Except.error Err.colorBadHex
          | some g =>
            match pyIntBase16 (pySlice color 5 7) with
            | none => Except.error Err.colorBadHex
            | some b =>
              if color.length = 7 then Except.ok (r, g, b, 255)
              else
                match pyIntBase16 (pySlice color 7 9) with
                | none => Except.error Err.colorBadHex
                | some a => Except.ok (r, g, b, a)

/-- C6: color parsing expands short forms as specified: the three white
forms and the quoted 4-digit forms give the documented quadruples, every
accepted 7-character input (6 hex digits) gets alpha `0xFF`, and every
accepted 9-character input (8 hex digits) carries the explicitly parsed
alpha. -/
theorem C6_color_expansion :
    makeColor (PyVal.str "#fff".data) = Except.ok (255, 255, 255, 255) ∧
    makeColor (PyVal.str "#ffffff".data) = Except.ok (255, 255, 255, 255) ∧
    makeColor (PyVal.str "#ffffffff".data) = Except.ok (255, 255, 255, 255) ∧
    makeColor (PyVal.str "#0000".data) = Except.ok (0, 0, 0, 0) ∧
    makeColor (PyVal.str "#f908".data) = Except.ok (255, 153, 0, 136) ∧
    (∀ cs r g b a, cs.length = 7 →
      makeColor (PyVal.str cs) = Except.ok (r, g, b, a) → a = 255) ∧
    (∀ cs r g b a, cs.length = 9 →
      makeColor (PyVal.str cs) = Except.ok (r, g, b, a) →
        pyIntBase16 (pySlice cs 7 9) = some a) := by
  refine ⟨by decide, by decide, by decide, by decide, by decide, ?_, ?_⟩
  · intro cs r g b a hlen hok
    cases cs with
    | nil => simp at hlen
    | cons c0 rest =>
      simp only [makeColor] at hok
      repeat' split at hok
      all_goals simp_all
  · intro cs r g b a hlen hok
    cases cs with
    | nil => simp at hlen
    | cons c0 rest =>
      simp only [makeColor] at hok
      repeat' split at hok
      all_goals simp_all

/-- C6 witness: the 8-digit conjunct applied at the concrete input
`"#ff990088"`. -/
theorem C6_witness :
    makeColor (PyVal.str "#ff990088".data) = Except.ok (255, 153, 0, 136) ∧
      pyIntBase16 (pySlice "#ff990088".data 7 9) = some 136 :=
  ⟨by decide,
    C6_color_expansion.2.2.2.2.2.2 "#ff990088".data 255 153 0 136 (by decide) (by decide)⟩

/-- C7 counterexample: `"#+faabb"` contains `'+'`, which is not a hex
digit, yet `make_color` succeeds and returns `(15, 170, 187, 255)`
instead of failing with an invalid-color error: Python's `int(s, 16)`
accepts a leading sign (and surrounding whitespace) in each two-character
slice, so `int("+f", 16) == 15`. -/
theorem C7_cex :
    hexVal '+' = none ∧
      makeColor (PyVal.str "#+faabb".data) = Except.ok (15, 170, 187, 255) := by
  constructor
  · decide
  · decide

/-- C7 (amended): color parsing fails with the invalid-color errors for
every non-textual input, for every nonempty textual input not starting
with `'#'`, and for every `'#'`-prefixed input whose hex-digit count is
not one of 3, 4, 6 or 8.  (The empty string instead raises an uncaught
`IndexError` at `color[0]`, and inputs of valid length can parse
successfully despite non-hex characters whenever every two-character
slice is accepted by Python's `int(_, 16)`.) -/
theorem C7_invalid_color :
    makeColor PyVal.other = Except.error Err.colorNotString ∧
    (∀ c0 cs, c0 ≠ '#' →
      makeColor (PyVal.str (c0 :: cs)) = Except.error Err.colorNoHash) ∧
    (∀ cs, ¬(cs.length = 3 ∨ cs.length = 4 ∨ cs.length = 6 ∨ cs.length = 8) →
      makeColor (PyVal.str ('#' :: cs)) = Except.error Err.colorBadLength) := by
  refine ⟨rfl, ?_, ?_⟩
  · intro c0 cs hc
    simp [makeColor, hc]
  · intro cs h
    simp only [makeColor]
    rw [if_neg (by simp)]
    rw [if_pos (by simp only [List.length_cons]; omega)]

/-- C7 witness: the three clauses applied at concrete inputs. -/
theorem C7_witness :
    makeColor PyVal.other = Except.error Err.colorNotString ∧
      makeColor (PyVal.str ('x' :: "yz".data)) = Except.error Err.colorNoHash ∧
      makeColor (PyVal.str ('#' :: "ab".data)) = Except.error Err.colorBadLength :=
  ⟨C7_invalid_color.1,
    C7_invalid_color.2.1 'x' "yz".data (by decide),
    C7_invalid_color.2.2 "ab".data (by decide)⟩

/-- `sympy.solve(eqs, a, b, c)` for the three equations of
`apply_curves_adjustment` (lines 435-439): a linear 3×3 system in
`(a, b, c)` over the Vandermonde matrix of the normalized control points
`x1, x2, x3` with right-hand sides `0, 1/2, 1`.  sympy's exact algebra is
embedded as exact rational linear algebra: when the Vandermonde
determinant `(x1 - x2) * (x1 - x3) * (x2 - x3)` is nonzero the unique
solution (here in Lagrange form) is returned as sympy's solution dict;
when it is zero the system is inconsistent — the right-hand sides
`0, 1/2, 1` are pairwise distinct while two of the x-values coincide — so
`sympy.solve` returns the empty list, modeled as `none`. -/
def curveSolve (x1 x2 x3 : ℚ) : Option (ℚ × ℚ × ℚ) :=
  if (x1 - x2) * (x1 - x3) * (x2 - x3) = 0 then none
  else
    let dg := (x2 - x1) * (x2 - x3)
    let dw := (x3 - x1) * (x3 - x2)
    some ((1 / 2) / dg + 1 / dw,
      -((1 / 2) * (x1 + x3) / dg) - (x1 + x2) / dw,
      (1 / 2) * x1 * x3 / dg + x1 * x2 / dw)

/-- `apply_curves_adjustment(rgba, black, grey, white)` (lines 422-449):
normalizes the control points by 255, solves for the quadratic
coefficients, and maps each RGB channel elementwise through
`a * x^2 + b * x + c`, passing alpha through unmodified.  When the
solution set is empty, line 442 subscripts the empty list `co` with a
`sympy.Symbol` — `co[a]` — which raises an uncaught Python `TypeError`
(list indices must be integers), modeled as `Err.typeError`. -/
def applyCurvesAdjustment (rgba : Rgba) (black grey white : ℚ) : Except Err Rgba :=
  match curveSolve (black / 255) (grey / 255) (white / 255) with
  | none => Except.error Err.typeError
  | some (a, b, c) =>
    Except.ok
      { r := rgba.r.map (fun x => a * x ^ 2 + b * x + c)
        g := rgba.g.map (fun x => a * x ^ 2 + b * x + c)
        b := rgba.b.map (fun x => a * x ^ 2 + b * x + c)
        a := rgba.a }

/-- One step of the `apply_adjustments` loop (lines 413-418): the name
`"curves"` dispatches to `apply_curves_adjustment(rgba, *args)` — a
`*args` splat whose arity mismatch raises an uncaught `TypeError` when
`args` does not have exactly three elements — and any other name raises
`KnownUnknown`. -/
def applyAdjList (rgba : Rgba) : List (String × List ℚ) → Except Err Rgba
  | [] => Except.ok rgba
  | (name, args) :: rest =>
    if name = "curves" then
      match args with
      | [black, grey, white] => do
        let rgba2 ← applyCurvesAdjustment rgba black grey white
        applyAdjList rgba2 rest
      | _ => Except.error Err.typeError
    else Except.error (Err.unsupportedAdjustment name)

/-- `apply_adjustments(rgba, adjustments)` (lines 402-420): a falsy
`adjustments` argument (Python `None` or the empty list) is a no-op. -/
def applyAdjustments (rgba : Rgba) : Option (List (String × List ℚ)) → Except Err Rgba
  | none => Except.ok rgba
  | some l => if l = [] then Except.ok rgba else applyAdjList rgba l

/-- A byte pixel of a PIL `RGBA` image. -/
structure Pix where
  r : Nat
  g : Nat
  b : Nat
  a : Nat
deriving DecidableEq

/-- A PIL `RGBA` image, as the flattened list of its pixels. -/
abbrev Img := List Pix

/-- A tile coordinate; the compositing core only passes it through to the
resolver, so its structure is irrelevant. -/
abbrev Coord := Nat

/-- The configuration object threaded through `render`: `config.layers`
together with `TileStache.getTile` and the PNG decode
(`PIL.Image.open(...).convert(...)`, lines 253-257 and 261-265) are
collapsed into one total resolver from a layer name and coordinate to the
fetched tile's byte raster — the external collaborator the spec calls the
resolver. -/
structure Config where
  layers : String → Coord → Img

/-- Python truthiness of the optional string fields of a `Layer`
(`if self.layername:` etc., lines 253, 261, 269): `None` and the empty
string are falsy. -/
def strTruthy : Option String → Bool
  | none => false
  | some s => s != ""

/-- Whether an `Except` computation succeeded. -/
def exOk {α : Type} : Except Err α → Bool
  | Except.ok _ => true
  | Except.error _ => false

/-- `_img2rgba` (lines 396-400): split a byte image into four float
channels scaled into `[0, 1]`. -/
def img2rgba (img : Img) : Rgba :=
  { r := img.map (fun p => (p.r : ℚ) / 255)
    g := img.map (fun p => (p.g : ℚ) / 255)
    b := img.map (fun p => (p.b : ℚ) / 255)
    a := img.map (fun p => (p.a : ℚ) / 255) }

/-- The mask channel of lines 264-265: `convert('L')` maps each RGBA
pixel to its PIL luma `(r * 299 + g * 587 + b * 114) / 1000` (integer
division), and the result is scaled into `[0, 1]`. -/
def imgLumaChan (img : Img) : List ℚ :=
  img.map (fun p => (((p.r * 299 + p.g * 587 + p.b * 114) / 1000 : ℕ) : ℚ) / 255)

/-- numpy `astype(numpy.ubyte)` on a float value: truncation toward zero,
then wraparound modulo 256 for out-of-range values. -/
def truncQ (q : ℚ) : Int := if q < 0 then -(⌊-q⌋) else ⌊q⌋

/-- Quantize one float channel value at an encode boundary:
`(band * 255.0).astype(numpy.ubyte)` (line 394). -/
def toUbyte (q : ℚ) : Nat := ((truncQ (q * 255)).emod 256).toNat

/-- `PIL.Image.merge` over the four quantized channels. -/
def zip4Pix : List ℚ → List ℚ → List ℚ → List ℚ → Img
  | rv :: rs, gv :: gs, bv :: bs, av :: avs =>
    ⟨toUbyte rv, toUbyte gv, toUbyte bv, toUbyte av⟩ :: zip4Pix rs gs bs avs
  | _, _, _, _ => []

/-- `_rgba2img` (lines 390-394). -/
def rgba2img (x : Rgba) : Img := zip4Pix x.r x.g x.b x.a

/-- The constant-color raster of line 271:
`[numpy.zeros(shape) + band/255.0 for band in color]`, sized to the
accumulator. -/
def constRgba (n : Nat) (c : Int × Int × Int × Int) : Rgba :=
  { r := List.replicate n ((c.1 : ℚ) / 255)
    g := List.replicate n ((c.2.1 : ℚ) / 255)
    b := List.replicate n ((c.2.2.1 : ℚ) / 255)
    a := List.replicate n ((c.2.2.2 : ℚ) / 255) }

/-- The all-zero raster of line 287:
`[numpy.zeros(mask_chan.shape) for i in range(4)]`. -/
def zerosRgba (n : Nat) : Rgba :=
  ⟨List.replicate n 0, List.replicate n 0, List.replicate n 0, List.replicate n 0⟩

/-- A single compositing layer (class `Layer`, lines 216-241), with the
constructor's default values. -/
structure Layer where
  layername : Option String := none
  colorname : Option String := none
  maskname : Option String := none
  opacity : ℚ := 1
  blendmode : Option String := none
  adjustments : Option (List (String × List ℚ)) := none

/-- `Layer.render(config, input_img, coord)` (lines 243-309), with the
source's evaluation order: the source tile and mask tile are fetched
(totally, via the resolver in `Config`), then the fill color is parsed
(fallible), then the adjustments are applied to the fetched source
(fallible), and only then does the combination policy dispatch on which
of the three fields are (truthily) present. -/
def Layer.render (l : Layer) (cfg : Config) (input : Img) (coord : Coord) :
    Except Err Img :=
  let outputRgba := img2rgba input
  let layerFetched : Option Rgba :=
    if strTruthy l.layername then
      some (img2rgba (cfg.layers (l.layername.getD "") coord))
    else none
  let maskChan : Option (List ℚ) :=
    if strTruthy l.maskname then
      some (imgLumaChan (cfg.layers (l.maskname.getD "") coord))
    else none
  let colorE : Except Err (Option Rgba) :=
    if strTruthy l.colorname then
      (makeColor (PyVal.str (l.colorname.getD "").data)).map
        (fun c => some (constRgba input.length c))
    else Except.ok none
  match colorE with
  | Except.error e => Except.error e
  | Except.ok colorRgba =>
    let layerE : Except Err (Option Rgba) :=
      match layerFetched with
      | none => Except.ok none
      | some r0 => (applyAdjustments r0 l.adjustments).map some
    match layerE with
    | Except.error e => Except.error e
    | Except.ok layerRgba =>
      match layerRgba, colorRgba, maskChan with
      | some _, some _, some _ => Except.error Err.conflictingLayerSpec
      | some lr, some cr, none =>
        match blendImages outputRgba cr (MaskArg.rgba cr) l.opacity l.blendmode with
        | Except.error e => Except.error e
        | Except.ok o1 =>
          match blendImages o1 lr (MaskArg.rgba lr) l.opacity l.blendmode with
          | Except.error e => Except.error e
          | Except.ok o2 => Except.ok (rgba2img o2)
      | some lr, none, some mc =>
        match blendImages (zerosRgba mc.length) lr (MaskArg.chan mc) 1 none with
        | Except.error e => Except.error e
        | Except.ok lm =>
          match blendImages outputRgba lm (MaskArg.rgba lm) l.opacity l.blendmode with
          | Except.error e => Except.error e
          | Except.ok o => Except.ok (rgba2img o)
      | none, some cr, some mc =>
        match blendImages outputRgba cr (MaskArg.chan mc) l.opacity l.blendmode with
        | Except.error e => Except.error e
        | Except.ok o => Except.ok (rgba2img o)
      | some lr, none, none =>
        match blendImages outputRgba lr (MaskArg.rgba lr) l.opacity l.blendmode with
        | Except.error e => Except.error e
        | Except.ok o => Except.ok (rgba2img o)
      | none, some cr, none =>
        match blendImages outputRgba cr (MaskArg.rgba cr) l.opacity l.blendmode with
        | Except.error e => Except.error e
        | Except.ok o => Except.ok (rgba2img o)
      | none, none, some _ => Except.error Err.maskWithoutContent
      | none, none, none => Except.error Err.emptyLayerSpec

/-- PIL's exact division by 255 with rounding, the `MULDIV255` macro used
by `Image.paste` blending. -/
def mulDiv255 (x y : Nat) : Nat := ((x * y + 128) / 256 + (x * y + 128)) / 256

/-- PIL's per-byte `BLEND(mask, dst, src)` used by `paste` with a mask. -/
def pasteByte (m d s : Nat) : Nat := mulDiv255 d (255 - m) + mulDiv255 s m

/-- `output_img.paste(stack_img, (0, 0), stack_img)` (line 337): an RGBA
mask image contributes its alpha band as the per-pixel blend mask, and
every band of the destination is blended accordingly. -/
def pilPaste (dst src : Img) : Img :=
  List.zipWith
    (fun d s =>
      ⟨pasteByte s.a d.r s.r, pasteByte s.a d.g s.g,
        pasteByte s.a d.b s.b, pasteByte s.a d.a s.a⟩)
    dst src

/-- A node of the composition tree: the recursive Layer/Stack structure
built by `build_stack`. -/
inductive Node where
  | layer (l : Layer)
  | stack (children : List Node)

mutual

/-- Rendering a node: a `Layer` renders itself; a `Stack` (lines 324-339)
folds its children over a freshly created fully transparent scratch
raster of the input's size and finally pastes the scratch raster over a
copy of the input, masked by the scratch raster's own alpha. -/
def renderNode (cfg : Config) (input : Img) (coord : Coord) :
    Node → Except Err Img
  | Node.layer l => l.render cfg input coord
  | Node.stack cs =>
    match renderChildren cfg (List.replicate input.length ⟨0, 0, 0, 0⟩) coord cs with
    | Except.error e => Except.error e
    | Except.ok stacked => Except.ok (pilPaste input stacked)

/-- The fold of lines 333-334: each child renders over the scratch
raster so far. -/
def renderChildren (cfg : Config) (img : Img) (coord : Coord) :
    List Node → Except Err Img
  | [] => Except.ok img
  | n :: ns =>
    match renderNode cfg img coord n with
    | Except.error e => Except.error e
    | Except.ok img2 => renderChildren cfg img2 coord ns

end

/-- C3 counterexample: at the degenerate control points `(100, 100, 200)`
the curve adjustment fails with an uncaught Python `TypeError` (indexing
sympy's empty solution list with a `Symbol`), which is not the
`DegenerateCurve` error the claim requires — the code has no
`DegenerateCurve` raise site at all. -/
theorem C3_cex :
    applyCurvesAdjustment ⟨[0], [0], [0], [1]⟩ 100 100 200 =
        Except.error Err.typeError ∧
      Err.typeError ≠ Err.degenerateCurve := by
  constructor
  · norm_num [applyCurvesAdjustment, curveSolve]
  · decide

/-- C3 (amended): for every raster and every triple of control points
whose normalized values `black/255`, `grey/255`, `white/255` are not
pairwise distinct, the curve adjustment does fail — never returning NaN
or garbage coefficients — but with an uncaught `TypeError` from
subscripting sympy's empty solution list, not with a dedicated
`DegenerateCurve` error. -/
theorem C3_degenerate_curve_fails (rgba : Rgba) (black grey white : ℚ)
    (h : black / 255 = grey / 255 ∨ black / 255 = white / 255 ∨
      grey / 255 = white / 255) :
    applyCurvesAdjustment rgba black grey white = Except.error Err.typeError := by
  have hdet : (black / 255 - grey / 255) * (black / 255 - white / 255) *
      (grey / 255 - white / 255) = 0 := by
    rcases h with h | h | h
    · rw [h, sub_self, zero_mul, zero_mul]
    · rw [h, sub_self, mul_zero, zero_mul]
    · rw [h, sub_self, mul_zero]
  simp [applyCurvesAdjustment, curveSolve, hdet]

/-- C3 witness: the amended theorem applied at the concrete degenerate
input from the spec. -/
theorem C3_witness :
    applyCurvesAdjustment ⟨[0, 1], [0, 1], [0, 1], [1, 1]⟩ 100 100 200 =
      Except.error Err.typeError :=
  C3_degenerate_curve_fails ⟨[0, 1], [0, 1], [0, 1], [1, 1]⟩ 100 100 200
    (Or.inl rfl)

/-- Pointwise monotonicity of the alpha combination of lines 477-479:
`1 - (1 - bottom_a) * (1 - top_a * mask)` is at least `bottom_a` whenever
`bottom_a ≤ 1` and `top_a` and `mask` are nonnegative. -/
lemma alpha_combine_mono (bs ts ms : List ℚ) (hlt : ts.length = bs.length)
    (hlm : ms.length = bs.length) (hb : ∀ x ∈ bs, x ≤ 1)
    (ht : ∀ x ∈ ts, 0 ≤ x) (hm : ∀ x ∈ ms, 0 ≤ x) :
    List.Forall₂ (· ≤ ·) bs
      (List.zipWith (fun ba ic => 1 - (1 - ba) * (1 - ic)) bs
        (List.zipWith (fun ta mc => ta * mc) ts ms)) := by
  induction bs generalizing ts ms with
  | nil => simp
  | cons b bs ih =>
    match ts, ms with
    | t :: ts, m :: ms =>
      simp only [List.zipWith]
      constructor
      · have hb1 : b ≤ 1 := hb b (List.mem_cons_self b bs)
        have ht1 : 0 ≤ t := ht t (List.mem_cons_self t ts)
        have hm1 : 0 ≤ m := hm m (List.mem_cons_self m ms)
        nlinarith [mul_nonneg (mul_nonneg (sub_nonneg.mpr hb1) ht1) hm1]
      · exact ih ts ms (by simpa using hlt) (by simpa using hlm)
          (fun x hx => hb x (List.mem_cons_of_mem b hx))
          (fun x hx => ht x (List.mem_cons_of_mem t hx))
          (fun x hx => hm x (List.mem_cons_of_mem m hx))

/-- C9: for rasters whose relevant values lie in `[0, 1]` (and whose
channels agree in length), blending with mode none and opacity 1 produces
an output alpha channel pointwise at least the bottom alpha channel:
`out_a = 1 - (1 - bottom_a) * (1 - top_a * mask) ≥ bottom_a`. -/
theorem C9_alpha_never_decreases (bottom top : Rgba) (m : List ℚ) (out : Rgba)
    (hlt : top.a.length = bottom.a.length) (hlm : m.length = bottom.a.length)
    (hb : ∀ x ∈ bottom.a, 0 ≤ x ∧ x ≤ 1) (ht : ∀ x ∈ top.a, 0 ≤ x ∧ x ≤ 1)
    (hm : ∀ x ∈ m, 0 ≤ x ∧ x ≤ 1)
    (hok : blendImages bottom top (MaskArg.chan m) 1 none = Except.ok out) :
    List.Forall₂ (· ≤ ·) bottom.a out.a := by
  have h1 : (1 : ℚ) ≠ 0 := one_ne_zero
  simp only [blendImages, if_neg h1] at hok
  rw [if_pos (Or.inl trivial)] at hok
  have ha : out.a = List.zipWith (fun ba ic => 1 - (1 - ba) * (1 - ic)) bottom.a
      (List.zipWith (fun ta mc => ta * mc) top.a m) := by
    cases hok
    rfl
  rw [ha]
  exact alpha_combine_mono bottom.a top.a m hlt hlm
    (fun x hx => (hb x hx).2) (fun x hx => (ht x hx).1) (fun x hx => (hm x hx).1)

/-- C9 witness: the theorem applied at a concrete one-pixel input. -/
theorem C9_witness :
    List.Forall₂ (· ≤ ·) (Rgba.a ⟨[0], [0], [0], [0]⟩) (Rgba.a ⟨[1], [1], [1], [1]⟩) :=
  C9_alpha_never_decreases ⟨[0], [0], [0], [0]⟩ ⟨[1], [1], [1], [1]⟩ [1]
    ⟨[1], [1], [1], [1]⟩ (by simp) (by simp) (by norm_num) (by norm_num) (by norm_num)
    (by norm_num [blendImages, zipWith3q, plainMix, opMix])

/-- C2: the three illegal field combinations of `Layer.render`, for every
accumulator, coordinate, resolver and layer.  The conflict case
additionally assumes that the two fallible steps the source runs before
the combination check — parsing the fill color (line 270) and applying
the adjustments to the fetched source (line 276) — succeed, since their
errors would surface first. -/
theorem C2_layer_legality (cfg : Config) (input : Img) (coord : Coord) (l : Layer) :
    ((strTruthy l.layername = true ∧ strTruthy l.colorname = true ∧
        strTruthy l.maskname = true ∧
        exOk (makeColor (PyVal.str (l.colorname.getD "").data)) = true ∧
        exOk (applyAdjustments (img2rgba (cfg.layers (l.layername.getD "") coord))
          l.adjustments) = true) →
      l.render cfg input coord = Except.error Err.conflictingLayerSpec) ∧
    ((strTruthy l.layername = false ∧ strTruthy l.colorname = false ∧
        strTruthy l.maskname = true) →
      l.render cfg input coord = Except.error Err.maskWithoutContent) ∧
    ((strTruthy l.layername = false ∧ strTruthy l.colorname = false ∧
        strTruthy l.maskname = false) →
      l.render cfg input coord = Except.error Err.emptyLayerSpec) := by
  refine ⟨?_, ?_, ?_⟩
  · rintro ⟨h1, h2, h3, h4, h5⟩
    cases hmc : makeColor (PyVal.str (l.colorname.getD "").data) with
    | error e => rw [hmc] at h4; simp [exOk] at h4
    | ok c =>
      cases hadj : applyAdjustments
          (img2rgba (cfg.layers (l.layername.getD "") coord)) l.adjustments with
      | error e => rw [hadj] at h5; simp [exOk] at h5
      | ok r0 => simp [Layer.render, h1, h2, h3, hmc, hadj, Except.map]
  · rintro ⟨h1, h2, h3⟩
    simp [Layer.render, h1, h2, h3]
  · rintro ⟨h1, h2, h3⟩
    simp [Layer.render, h1, h2, h3]

/-- Concrete resolver for the C2 witness. -/
def c2cfg : Config := ⟨fun _ _ => [⟨255, 255, 255, 255⟩]⟩

/-- C2 witness: the three clauses applied to concrete layers over a
concrete resolver, accumulator and coordinate. -/
theorem C2_witness :
    Layer.render ⟨some "s", some "#fff", some "m", 1, none, none⟩ c2cfg
        [⟨0, 0, 0, 0⟩] 0 = Except.error Err.conflictingLayerSpec ∧
      Layer.render ⟨none, none, some "m", 1, none, none⟩ c2cfg
        [⟨0, 0, 0, 0⟩] 0 = Except.error Err.maskWithoutContent ∧
      Layer.render ⟨none, none, none, 1, none, none⟩ c2cfg
        [⟨0, 0, 0, 0⟩] 0 = Except.error Err.emptyLayerSpec :=
  ⟨(C2_layer_legality c2cfg [⟨0, 0, 0, 0⟩] 0 _).1
      ⟨by decide, by decide, by decide, by decide, by decide⟩,
    (C2_layer_legality c2cfg [⟨0, 0, 0, 0⟩] 0 _).2.1 ⟨by decide, by decide, by decide⟩,
    (C2_layer_legality c2cfg [⟨0, 0, 0, 0⟩] 0 _).2.2 ⟨by decide, by decide, by decide⟩⟩

/-- `MULDIV255(d, 255) = d` on bytes: blending with mask 0 keeps the
destination byte. -/
lemma mulDiv255_full (d : Nat) (hd : d < 256) : mulDiv255 d 255 = d := by
  simp only [mulDiv255]
  omega

/-- Pasting an all-transparent raster of matching size over a byte image
is the identity. -/
lemma pilPaste_transparent (img : Img)
    (hb : ∀ p ∈ img, p.r < 256 ∧ p.g < 256 ∧ p.b < 256 ∧ p.a < 256) :
    pilPaste img (List.replicate img.length ⟨0, 0, 0, 0⟩) = img := by
  induction img with
  | nil => rfl
  | cons p ps ih =>
    obtain ⟨hr, hg, hbb, ha⟩ := hb p (List.mem_cons_self p ps)
    simp only [List.length_cons, List.replicate_succ, pilPaste, List.zipWith]
    congr 1
    · cases p
      simp only [pasteByte, mulDiv255, Pix.mk.injEq]
      refine ⟨?_, ?_, ?_, ?_⟩ <;> simp_all <;> omega
    · simpa [pilPaste] using ih (fun q hq => hb q (List.mem_cons_of_mem p hq))

/-- C8: rendering a stack with an empty child list returns the input
byte raster unchanged, pixel for pixel, for every resolver and
coordinate: the fold over no children leaves the fully transparent
scratch raster untouched, and pasting it over the input with its own
alpha as mask is a no-op. -/
theorem C8_empty_stack_identity (cfg : Config) (coord : Coord) (img : Img)
    (hb : ∀ p ∈ img, p.r < 256 ∧ p.g < 256 ∧ p.b < 256 ∧ p.a < 256) :
    renderNode cfg img coord (Node.stack []) = Except.ok img := by
  simp only [renderNode, renderChildren]
  simp [pilPaste_transparent img hb]

/-- Concrete resolver for the C8 witness. -/
def c8cfg : Config := ⟨fun _ _ => []⟩

/-- C8 witness: the theorem applied at a concrete one-pixel input. -/
theorem C8_witness :
    renderNode c8cfg [⟨204, 204, 204, 255⟩] 0 (Node.stack []) =
      Except.ok [⟨204, 204, 204, 255⟩] :=
  C8_empty_stack_identity c8cfg 0 [⟨204, 204, 204, 255⟩] (by decide)

/-!
Buffer-level model of `blend_images`, for the frame/effect claim: numpy
arrays are mutable buffers, so the value-level `blendImages` above is
complemented by a heap model in which a heap is the list of all allocated
buffers in allocation order, a buffer id is an index into that list,
`numpy.copy` and every arithmetic expression allocate fresh buffers at
the end of the heap, and the boolean-mask assignments of the hard-light
branch (lines 486-487) write in place to the output copies.  Expression
temporaries are collapsed into the single buffer holding each assigned
result; this does not affect which pre-existing buffers are written
(none) nor the freshness of the returned buffers.
-/

/-- Read a buffer from the heap. -/
def heapRead (h : List (List ℚ)) (i : Nat) : List ℚ := h.getD i []

/-- The four channel buffer ids of a raster in the heap model. -/
structure RgbaIds where
  r : Nat
  g : Nat
  b : Nat
  a : Nat
deriving DecidableEq

/-- The `mask_chan` argument in the heap model: one channel buffer or a
full raster whose alpha buffer is used. -/
inductive HMask where
  | chan (i : Nat)
  | rgba (ids : RgbaIds)
deriving DecidableEq

/-- `blend_images` at the buffer level.  Lines 462 (the four copies),
475/478/479 and 493 (fresh arrays from expressions, rebinding the output
list entries), 486-487 (in-place writes to the copied output buffers), in
the source's evaluation order. -/
def blendImagesHeap (h : List (List ℚ)) (bottom top : RgbaIds) (mask : HMask)
    (opacity : ℚ) (blendmode : Option String) :
    Except Err (RgbaIds × List (List ℚ)) :=
  let n := h.length
  let h4 := h ++ [heapRead h bottom.r, heapRead h bottom.g,
    heapRead h bottom.b, heapRead h bottom.a]
  if opacity = 0 then Except.ok (⟨n, n + 1, n + 2, n + 3⟩, h4)
  else
    let m := match mask with
      | HMask.chan i => heapRead h i
      | HMask.rgba ids => heapRead h ids.a
    if blendmode = none ∨ blendmode = some "" then
      let vR := zipWith3q plainMix m (heapRead h bottom.r) (heapRead h top.r)
      let vG := zipWith3q plainMix m (heapRead h bottom.g) (heapRead h top.g)
      let vB := zipWith3q plainMix m (heapRead h bottom.b) (heapRead h top.b)
      let h7 := h4 ++ [vR, vG, vB]
      let inter := List.zipWith (fun ta mc => ta * mc) (heapRead h top.a) m
      let h8 := h7 ++ [inter]
      let vA := List.zipWith (fun ba ic => 1 - (1 - ba) * (1 - ic))
        (heapRead h bottom.a) inter
      let h9 := h8 ++ [vA]
      let fR := List.zipWith (opMix opacity) (heapRead h bottom.r) vR
      let fG := List.zipWith (opMix opacity) (heapRead h bottom.g) vG
      let fB := List.zipWith (opMix opacity) (heapRead h bottom.b) vB
      let h12 := h9 ++ [fR, fG, fB]
      Except.ok (⟨n + 9, n + 10, n + 11, n + 8⟩, h12)
    else if blendmode = some "hard light" then
      let vR := List.zipWith hardMix (heapRead h bottom.r) (heapRead h top.r)
      let vG := List.zipWith hardMix (heapRead h bottom.g) (heapRead h top.g)
      let vB := List.zipWith hardMix (heapRead h bottom.b) (heapRead h top.b)
      let h5 := ((h4.set n vR).set (n + 1) vG).set (n + 2) vB
      let fR := List.zipWith (opMix opacity) (heapRead h bottom.r) vR
      let fG := List.zipWith (opMix opacity) (heapRead h bottom.g) vG
      let fB := List.zipWith (opMix opacity) (heapRead h bottom.b) vB
      let h8 := h5 ++ [fR, fG, fB]
      Except.ok (⟨n + 4, n + 5, n + 6, n + 3⟩, h8)
    else Except.error (Err.unsupportedBlendMode (blendmode.getD ""))

/-- Appending new buffers does not change existing buffers. -/
lemma heapRead_append (h l : List (List ℚ)) (i : Nat) (hi : i < h.length) :
    heapRead (h ++ l) i = heapRead h i := by
  induction h generalizing i with
  | nil => simp at hi
  | cons x xs ih =>
    cases i with
    | zero => rfl
    | succ j =>
      simp only [heapRead, List.cons_append, List.getD_cons_succ]
      exact ih j (by simpa using hi)

/-- Writing one buffer does not change the others. -/
lemma heapRead_set_ne (h : List (List ℚ)) (j : Nat) (v : List ℚ) (i : Nat)
    (hne : i ≠ j) : heapRead (h.set j v) i = heapRead h i := by
  induction h generalizing i j with
  | nil => rfl
  | cons x xs ih =>
    cases j with
    | zero =>
      cases i with
      | zero => exact absurd rfl hne
      | succ k => rfl
    | succ j0 =>
      cases i with
      | zero => rfl
      | succ k =>
        simp only [heapRead, List.set_cons_succ, List.getD_cons_succ]
        exact ih j0 k (by omega)

/-- C10: whenever the buffer-level `blend_images` succeeds (opacity 0 or
a recognized blend mode), every buffer that existed before the call —
in particular each bottom input channel — still holds its old contents,
and all four returned output channel buffers are freshly allocated
(their ids are at least the old heap size). -/
theorem C10_blend_frame (h : List (List ℚ)) (bottom top : RgbaIds) (mask : HMask)
    (opacity : ℚ) (blendmode : Option String) (out : RgbaIds) (h2 : List (List ℚ))
    (hok : blendImagesHeap h bottom top mask opacity blendmode =
      Except.ok (out, h2)) :
    (∀ i, i < h.length → heapRead h2 i = heapRead h i) ∧
      h.length ≤ out.r ∧ h.length ≤ out.g ∧ h.length ≤ out.b ∧ h.length ≤ out.a := by
  simp only [blendImagesHeap] at hok
  split at hok
  · simp only [Except.ok.injEq, Prod.mk.injEq] at hok
    obtain ⟨hid, hheap⟩ := hok
    subst hid
    subst hheap
    refine ⟨fun i hi => heapRead_append _ _ i hi, ?_, ?_, ?_, ?_⟩ <;> simp
  · split at hok
    · simp only [Except.ok.injEq, Prod.mk.injEq] at hok
      obtain ⟨hid, hheap⟩ := hok
      subst hid
      subst hheap
      refine ⟨fun i hi => ?_, ?_, ?_, ?_, ?_⟩
      · rw [heapRead_append _ _ i (by simp; omega),
          heapRead_append _ _ i (by simp; omega),
          heapRead_append _ _ i (by simp; omega),
          heapRead_append _ _ i (by simp; omega),
          heapRead_append _ _ i hi]
      all_goals simp
    · split at hok
      · simp only [Except.ok.injEq, Prod.mk.injEq] at hok
        obtain ⟨hid, hheap⟩ := hok
        subst hid
        subst hheap
        refine ⟨fun i hi => ?_, ?_, ?_, ?_, ?_⟩
        · rw [heapRead_append _ _ i (by simp; omega),
            heapRead_set_ne _ _ _ i (by omega),
            heapRead_set_ne _ _ _ i (by omega),
            heapRead_set_ne _ _ _ i (by omega),
            heapRead_append _ _ i hi]
        all_goals simp
      · exact absurd hok (by simp)

/-- Concrete heap for the C10 witness: one allocated buffer holding the
single channel value 1, shared by all four bottom and top channels and
the mask. -/
def c10h : List (List ℚ) := [[1]]

/-- Concrete buffer ids for the C10 witness. -/
def c10ids : RgbaIds := ⟨0, 0, 0, 0⟩

/-- C10 witness: the theorem applied to a concrete run of the buffer-level
blend with mode none and opacity 1. -/
theorem C10_witness :
    blendImagesHeap c10h c10ids c10ids (HMask.chan 0) 1 none =
        Except.ok (⟨10, 11, 12, 9⟩,
          [[1], [1], [1], [1], [1], [1], [1], [1], [1], [1], [1], [1], [(1 : ℚ)]]) ∧
      heapRead [[1], [1], [1], [1], [1], [1], [1], [1], [1], [1], [1], [1], [(1 : ℚ)]] 0 =
        heapRead c10h 0 ∧
      c10h.length ≤ 10 := by
  have hok : blendImagesHeap c10h c10ids c10ids (HMask.chan 0) 1 none =
      Except.ok (⟨10, 11, 12, 9⟩,
        [[1], [1], [1], [1], [1], [1], [1], [1], [1], [1], [1], [1], [(1 : ℚ)]]) := by
    norm_num [blendImagesHeap, heapRead, c10h, c10ids, zipWith3q, plainMix, opMix]
  have hfr := C10_blend_frame c10h c10ids c10ids (HMask.chan 0) 1 none
    ⟨10, 11, 12, 9⟩
    [[1], [1], [1], [1], [1], [1], [1], [1], [1], [1], [1], [1], [(1 : ℚ)]] hok
  exact ⟨hok, hfr.1 0 (by norm_num [c10h]), hfr.2.1⟩

end Composite
